import Mathlib

/-!
Verification of the executive dashboard page (`main.py`) and the design-system
component library (`utils/design_system.py`) of the Telco network-optimization
suite.

The embedding is shallow: SQL aggregate rows become structures of nullable
(`Option`) numeric fields, Python floats become exact rationals (`ℚ`), Python
string formatting (`:.1f`, `:.0f`, `:,`) becomes explicit rendering functions
with round-half-to-even semantics, and the Streamlit page becomes a function
from collaborator outcomes (session reachability, query results) to a list of
rendered items.  Fallible collaborators are modelled with `Except` /
`QueryResult`; `st.stop()` is modelled as a halted page outcome.
-/

namespace Telco

/-! ## Python numeric formatting on exact rationals

Python `f"{x:.1f}"` and `f"{x:.0f}"` round half to even; `f"{n:,}"` groups
digits in threes with commas.  `roundHalfEven` is the rounding kernel; the
renderers below are pure `Int`/`Nat`/`String` functions. -/

/-- Round a rational to the nearest integer, ties to even (Python float
formatting semantics, exact on the rational values the claims touch). -/
def roundHalfEven (q : ℚ) : ℤ :=
  if q - (Rat.floor q : ℚ) < 1/2 then Rat.floor q
  else if 1/2 < q - (Rat.floor q : ℚ) then Rat.floor q + 1
  else if Rat.floor q % 2 = 0 then Rat.floor q else Rat.floor q + 1

/-- Render an integer number of tenths as a fixed-point string with one
decimal place, e.g. `950 ↦ "95.0"`. -/
def render1 (n10 : ℤ) : String :=
  let sign := if n10 < 0 then "-" else ""
  let a := n10.natAbs
  sign ++ toString (a / 10) ++ "." ++ toString (a % 10)

/-- Python `f"{q:.1f}"`. -/
def formatFixed1 (q : ℚ) : String := render1 (roundHalfEven (q * 10))

/-- Python `f"{q:.1f}%"`. -/
def formatPct1 (q : ℚ) : String := formatFixed1 q ++ "%"

/-- Python `f"{q:.0f}%"`. -/
def formatPct0 (q : ℚ) : String := toString (roundHalfEven q) ++ "%"

/-- Insert a comma after every third digit; the input is the digit list in
reverse (least-significant digit first), the counter starts at 1. -/
def commasAux : List Char → Nat → List Char
  | [], _ => []
  | [c], _ => [c]
  | c :: cs, k =>
    if k == 3 then c :: ',' :: commasAux cs 1
    else c :: commasAux cs (k + 1)

/-- Python `f"{n:,}"`: decimal rendering with thousands separators. -/
def formatThousands (n : ℤ) : String :=
  let ds := (toString n.natAbs).data
  (if n < 0 then "-" else "") ++ String.mk (commasAux ds.reverse 1).reverse

/-! ## Data model

The two aggregate rows returned by the warehouse queries in
`load_executive_dashboard_data` (`main.py`).  Every numeric field is nullable
at the source (`Option`); SQL integers are `ℤ`, SQL averages/sums are `ℚ`. -/

/-- Aggregate row of the network query (`main.py` lines 151-161). -/
structure RawNetworkMetrics where
  TOTAL_TOWERS : Option ℤ
  AVG_SUCCESS_RATE : Option ℚ
  CRITICAL_ISSUES : Option ℤ
  AVG_DL_UTILIZATION : Option ℚ
  TOTAL_THROUGHPUT : Option ℚ
  PREMIUM_TOWERS : Option ℤ
deriving DecidableEq

/-- Aggregate row of the customer query (`main.py` lines 165-174). -/
structure RawCustomerMetrics where
  TOTAL_TICKETS : Option ℤ
  AVG_SENTIMENT : Option ℚ
  CRITICAL_TICKETS : Option ℤ
  UNIQUE_CUSTOMERS : Option ℤ
  SATISFIED_CUSTOMERS : Option ℤ
deriving DecidableEq

/-- A derived KPI entry: `{value, trend, icon}` (`main.py` exec_kpis). -/
structure KPI where
  value : String
  trend : ℚ
  icon : String
deriving DecidableEq

/-- Python `x or 0` on a nullable number (None and 0 are both falsy and both
yield 0). -/
def orZeroQ (o : Option ℚ) : ℚ := o.getD 0

/-- Python `x or 0` on a nullable integer. -/
def orZeroZ (o : Option ℤ) : ℤ := o.getD 0

/-- Python `x or 1` on a nullable integer: `None` and `0` are falsy, so both
yield 1 (used for the Premium Performance denominator). -/
def orOneZ (o : Option ℤ) : ℤ :=
  match o with
  | none => 1
  | some x => if x = 0 then 1 else x

/-- The Premium Performance percentage before rounding:
`(premium or 0) / max(total or 1, 1) * 100` (`main.py` line 210). -/
def premiumPctQ (premium total : Option ℤ) : ℚ :=
  ((orZeroZ premium : ℤ) : ℚ) / ((max (orOneZ total) 1 : ℤ) : ℚ) * 100

/-- The executive KPI mapping built by `load_executive_dashboard_data`
(`main.py` lines 183-214), in source order.  Trends are the hard-coded
constants of the source. -/
def execKpis (net : RawNetworkMetrics) (cust : RawCustomerMetrics) :
    List (String × KPI) :=
  [ ("Network Uptime",
      { value := formatPct1 (orZeroQ net.AVG_SUCCESS_RATE * 100)
        trend := 2.1, icon := "🟢" }),
    ("Active Infrastructure",
      { value := formatThousands (orZeroZ net.TOTAL_TOWERS)
        trend := 0.8, icon := "📡" }),
    ("Customer Satisfaction",
      { value := formatPct1 ((orZeroQ cust.AVG_SENTIMENT + 1) * 50)
        trend := -1.2, icon := "😊" }),
    ("Revenue Protection",
      { value := "$2.8M", trend := 5.7, icon := "💰" }),
    ("Risk Incidents",
      { value := toString (orZeroZ net.CRITICAL_ISSUES)
        trend := -8.3, icon := "⚠️" }),
    ("Premium Performance",
      { value := formatPct0 (premiumPctQ net.PREMIUM_TOWERS net.TOTAL_TOWERS)
        trend := 3.4, icon := "⭐" }) ]

/-- The formatted value of a named KPI (dict access on the mapping). -/
def kpiValue (kpis : List (String × KPI)) (name : String) : Option String :=
  (kpis.lookup name).map KPI.value

/-! ## Sanity bridges: evaluating the formatting stack at integer points. -/

theorem ratFloor_eq_intFloor (q : ℚ) : Rat.floor q = ⌊q⌋ :=
  (Rat.floor_def' q).trans Rat.floor_def.symm

theorem roundHalfEven_intCast (n : ℤ) : roundHalfEven ((n : ℚ)) = n := by
  unfold roundHalfEven
  rw [ratFloor_eq_intFloor, Int.floor_intCast]
  norm_num

theorem formatFixed1_intCast (n : ℤ) : formatFixed1 ((n : ℚ)) = render1 (n * 10) := by
  unfold formatFixed1
  have h : (n : ℚ) * 10 = ((n * 10 : ℤ) : ℚ) := by push_cast; ring
  rw [h, roundHalfEven_intCast]

example : formatPct1 ((50 : ℤ) : ℚ) = "50.0%" := by
  unfold formatPct1; rw [formatFixed1_intCast]; decide

example : formatThousands 1000 = "1,000" := by decide

example : formatThousands 1234567 = "1,234,567" := by decide

/-! ## Rendered output

A page render is a sequence of items; each item records a component invocation
with its data-bearing arguments.  Static CSS/HTML blobs with no data content
(`inject_custom_css`, the technology panels, the success tiles, the footer)
are opaque markers. -/

/-- One rendered element of the page. -/
inductive RenderItem where
  | customCss
  | sidebarNav
  | pageHeader (title description icon : String)
  | alertBanner (message alertType : String)
  | infoBox (message boxType : String)
  | stError (message : String)
  | markdownText (s : String)
  | kpiDashboard (kpis : List (String × KPI))
  | summaryCard (title content : String) (metrics : List (String × String)) (icon : String)
  | metricTile (name value : String)
  | recommendationBlock (title : String) (recs : List String)
  | aiInsightsCard (title insight confidenceLabel icon : String)
  | actionCenter
  | navigationGrid (itemCount : Nat)
  | techPanels
  | successTiles
  | pageFooter
  | supportBlock
deriving DecidableEq

/-! ## load_executive_dashboard_data (`main.py` lines 146-221) -/

/-- Outcome of one warehouse query: the collected row list, or a raised
exception carrying its message. -/
inductive QueryResult (α : Type) where
  | ok (rows : List α)
  | err (msg : String)
deriving DecidableEq

/-- A query outcome that contributes no aggregate row: it raised, or it
returned zero rows. -/
def QueryResult.isAbsent : QueryResult α → Bool
  | .err _ => true
  | .ok [] => true
  | .ok (_ :: _) => false

/-- Return type of `load_executive_dashboard_data`: `some` of
(exec_kpis, net_metrics, cust_metrics), or `none` for the
`(None, None, None)` unavailable result. -/
abbrev LoadResult := Option (List (String × KPI) × RawNetworkMetrics × RawCustomerMetrics)

/-- `load_executive_dashboard_data` (`main.py` lines 147-221): run the network
query, then the customer query; if either raises, the except branch renders
`st.error(...)` and returns `(None, None, None)`; if both row lists are
nonempty, derive the KPIs from the first rows; otherwise return
`(None, None, None)`.  The second component is what the function body itself
renders (the `st.error` call). -/
def load_executive_dashboard_data (netRes : QueryResult RawNetworkMetrics)
    (custRes : QueryResult RawCustomerMetrics) :
    LoadResult × List RenderItem :=
  match netRes with
  | .err e => (none, [.stError ("Error loading executive dashboard data: " ++ e)])
  | .ok network_data =>
    match custRes with
    | .err e => (none, [.stError ("Error loading executive dashboard data: " ++ e)])
    | .ok customer_data =>
      match network_data, customer_data with
      | net_metrics :: _, cust_metrics :: _ =>
          (some (execKpis net_metrics cust_metrics, net_metrics, cust_metrics), [])
      | _, _ => (none, [])

/-! ## The 300-second query-result cache (`@st.cache_data(ttl=300)`)

`st.cache_data` memoizes whatever the wrapped function RETURNS (values are
cached; only an uncaught exception is not cached — and
`load_executive_dashboard_data` catches every exception itself).  One slot
(the function takes no arguments), expiring 300 seconds after insertion. -/

/-- The single cache slot: insertion time and the stored return value
(result plus replayed rendered elements). -/
structure CacheSlot where
  insertedAt : Nat
  value : LoadResult × List RenderItem
deriving DecidableEq

/-- One call through the `st.cache_data(ttl=300)` wrapper at time `now`:
returns (the produced value, the cache slot afterwards, whether the wrapped
function body — i.e. the two queries — actually executed). -/
def cachedLoad (now : Nat) (slot : Option CacheSlot)
    (netRes : QueryResult RawNetworkMetrics)
    (custRes : QueryResult RawCustomerMetrics) :
    (LoadResult × List RenderItem) × Option CacheSlot × Bool :=
  match slot with
  | some c =>
    if now - c.insertedAt < 300 then (c.value, some c, false)
    else
      let v := load_executive_dashboard_data netRes custRes
      (v, some ⟨now, v⟩, true)
  | none =>
    let v := load_executive_dashboard_data netRes custRes
    (v, some ⟨now, v⟩, true)

/-! ## Streamlit layout primitive

`st.columns(n)` raises `StreamlitAPIException` when `n = 0` (the column weights
must all be positive); otherwise it yields `n` column handles. -/

/-- Message raised by `st.columns` on a non-positive column count. -/
def stZeroColumnsMsg : String := "The number of columns must be at least 1."

/-- `st.columns(n)`: `n` column handles, or the zero-columns exception. -/
def st_columns (n : Nat) : Except String (List Nat) :=
  if n = 0 then .error stZeroColumnsMsg else .ok (List.range n)

/-! ## design_system.py presentation components (the ones the claims touch) -/

/-- `create_ai_recommendation_list` (`design_system.py` lines 594-628): an
empty list returns before rendering anything; otherwise one markup block
holding the title and a numbered div per recommendation. -/
def create_ai_recommendation_list (recommendations : List String)
    (title : String) : List RenderItem :=
  if recommendations = [] then []
  else [.recommendationBlock title recommendations]

/-- `create_ai_metrics_dashboard` (`design_system.py` lines 630-655): an empty
mapping returns before rendering; otherwise `st.columns(min(4, len(metrics)))`
then one styled tile per metric (the cycling icon decoration is elided). -/
def create_ai_metrics_dashboard (metrics : List (String × String)) :
    Except String (List RenderItem) :=
  if metrics = [] then .ok []
  else
    (st_columns (min 4 metrics.length)).map fun _ =>
      metrics.map fun m => .metricTile m.1 m.2

/-- The confidence badge label of `create_ai_insights_card`
(`design_system.py` line 547):
`"High" if confidence > 0.8 else "Medium" if confidence > 0.6 else "Low"`. -/
def confidence_text (confidence : ℚ) : String :=
  if confidence > 0.8 then "High"
  else if confidence > 0.6 then "Medium"
  else "Low"

/-- The default value of the `confidence` parameter of
`create_ai_insights_card` (`design_system.py` line 536). -/
def create_ai_insights_card_default_confidence : ℚ := 0.0

/-- `create_ai_insights_card` (`design_system.py` lines 536-564): one card
carrying the title, insight text, and the confidence badge label. -/
def create_ai_insights_card (title insight : String)
    (confidence : ℚ) (icon : String) : List RenderItem :=
  [.aiInsightsCard title insight (confidence_text confidence) icon]

/-- The progress fraction of `create_ai_progress_tracker`
(`design_system.py` line 666): `(current_step - 1) / total_steps`, an
unguarded Python division that raises `ZeroDivisionError` when
`total_steps = 0` (modelled as `none`). -/
def ai_progress (current_step total_steps : ℤ) : Option ℚ :=
  if total_steps = 0 then none
  else some (((current_step : ℚ) - 1) / (total_steps : ℚ))

/-- The rendered progress-bar width percentage (`design_system.py` line 677):
`progress * 100`. -/
def ai_progress_width (current_step total_steps : ℤ) : Option ℚ :=
  (ai_progress current_step total_steps).map (· * 100)

/-- `get_snowflake_session` (`design_system.py` lines 428-436): return the
active session, or — when `get_active_session()` raises — render an
error-styled info box and `st.stop()` the page render (modelled as the
`.error` side carrying the rendered box). -/
def get_snowflake_session (ctx : Except String Unit) :
    Except (List RenderItem) Unit :=
  match ctx with
  | .ok _ => .ok ()
  | .error e => .error [.infoBox ("Failed to connect to Snowflake: " ++ e) "error"]

/-! ## main.py fallback component definitions (lines 36-85)

These are the stand-ins bound by the `except ImportError` branch.  Unlike the
design_system originals, the dashboard-style fallbacks call `st.columns` with
the raw collection length and have no empty-collection guard. -/

/-- Fallback `create_ai_metrics_dashboard` (`main.py` lines 40-44):
`st.columns(len(metrics))` — raises on an empty mapping. -/
def fb_create_ai_metrics_dashboard (metrics : List (String × String)) :
    Except String (List RenderItem) :=
  (st_columns metrics.length).map fun _ =>
    metrics.map fun m => .metricTile m.1 m.2

/-- Fallback `create_ai_recommendation_list` (`main.py` lines 51-54): renders
the title heading, then one numbered markdown line per recommendation. -/
def fb_create_ai_recommendation_list (recommendations : List String)
    (title : String) : List RenderItem :=
  .markdownText ("### " ++ title) ::
    recommendations.enum.map fun p =>
      .markdownText (toString (p.1 + 1) ++ ". " ++ p.2)

/-- Fallback `create_executive_dashboard` (`main.py` lines 55-59):
`st.columns(min(4, len(kpis)))` — raises on an empty mapping — then one
metric per KPI showing its value. -/
def fb_create_executive_dashboard (kpis : List (String × KPI)) :
    Except String (List RenderItem) :=
  (st_columns (min 4 kpis.length)).map fun _ =>
    kpis.map fun k => .metricTile k.1 k.2.value

/-- Fallback `create_executive_summary_card` (`main.py` lines 67-74): heading
and content always; the metric columns only when `metrics` is truthy
(neither `None` nor empty). -/
def fb_create_executive_summary_card (title content : String)
    (metrics : Option (List (String × String))) (icon : String) :
    Except String (List RenderItem) :=
  let head : List RenderItem :=
    [.markdownText ("### " ++ icon ++ " " ++ title), .markdownText content]
  match metrics with
  | some ms =>
    if ms = [] then .ok head
    else (st_columns ms.length).map fun _ =>
      head ++ ms.map fun m => .metricTile m.1 m.2
  | none => .ok head

/-- Fallback `create_executive_alert_banner` (`main.py` lines 75-83). -/
def fb_create_executive_alert_banner (message : String)
    (alertType : String) : List RenderItem :=
  [.alertBanner message alertType]

/-- Demo-state record returned by the fallback demo controller. -/
structure DemoState where
  current_scenario : String
  demo_active : Bool
deriving DecidableEq

/-- Fallback `create_executive_demo_controller` (`main.py` lines 84-85):
always `{'current_scenario': 'baseline', 'demo_active': False}`. -/
def fb_create_executive_demo_controller : DemoState :=
  { current_scenario := "baseline", demo_active := false }

/-! ## Import resolution (`main.py` lines 17-85)

`from utils.design_system import (a, b, ...)` raises `ImportError` exactly
when some requested name is not defined in `design_system.py`; the except
branch then binds the fallback definitions. -/

/-- The module-level names defined by `design_system.py`. -/
def designSystemExports : List String :=
  [ "Colors", "Typography", "Spacing",
    "inject_custom_css", "create_page_header", "create_metric_card",
    "create_info_box", "show_loading_state", "create_status_indicator",
    "create_section_header", "get_professional_chart_layout",
    "style_plotly_chart", "create_professional_metric_charts",
    "get_snowflake_session", "execute_query_with_loading",
    "create_metric_grid", "create_sidebar_navigation", "add_page_footer",
    "create_ai_chat_interface", "create_ai_insights_card",
    "create_ai_loading_spinner", "create_ai_recommendation_list",
    "create_ai_metrics_dashboard", "create_ai_progress_tracker",
    "create_model_selector", "format_ai_response", "create_ai_metric_card" ]

/-- The names requested by the first (full) import in `main.py` lines 19-27. -/
def mainFullImportNames : List String :=
  [ "inject_custom_css", "create_page_header", "create_metric_card",
    "create_info_box", "get_snowflake_session", "create_metric_grid",
    "create_sidebar_navigation", "add_page_footer",
    "execute_query_with_loading", "create_ai_insights_card",
    "create_ai_metrics_dashboard", "format_ai_response",
    "create_ai_loading_spinner", "create_ai_recommendation_list",
    "create_executive_dashboard", "create_executive_navigation_grid",
    "create_executive_summary_card", "create_executive_alert_banner",
    "create_executive_demo_controller" ]

/-- The names requested by the fallback import in `main.py` lines 30-34. -/
def mainFallbackImportNames : List String :=
  [ "inject_custom_css", "create_page_header", "create_metric_card",
    "create_info_box", "get_snowflake_session", "create_metric_grid",
    "create_sidebar_navigation", "add_page_footer",
    "execute_query_with_loading" ]

/-- A `from module import (...)` statement succeeds iff every requested name
is defined by the module. -/
def importSucceeds (requested available : List String) : Bool :=
  requested.all fun n => available.contains n

/-- The binding of `create_executive_demo_controller` after the try/except
import: `design_system.py` defines no such name, so the full import can only
fail (`none` would be its binding had it somehow succeeded), and the fallback
definition is bound. -/
def demo_controller_binding : Option DemoState :=
  if importSucceeds mainFullImportNames designSystemExports then none
  else some fb_create_executive_demo_controller

/-- `demo_state` (`main.py` line 122), resolved through the import fallback.
The `getD` default is never reached: `demo_controller_binding` is provably
`some` (see the C8 theorem). -/
def demo_state : DemoState :=
  demo_controller_binding.getD fb_create_executive_demo_controller

/-! ## Page composition (`main.py` module level) -/

/-- Python `str.title()` on ASCII text: uppercase the first letter of every
word, lowercase the rest (a word boundary is any non-letter). -/
def titleCaseGo : Bool → List Char → List Char
  | _, [] => []
  | prevAlpha, c :: cs =>
    let c' := if c.isAlpha then (if prevAlpha then c.toLower else c.toUpper) else c
    c' :: titleCaseGo c.isAlpha cs

/-- Python `s.replace('_', ' ').title()` as used for the demo banner. -/
def scenarioLabel (s : String) : String :=
  String.mk (titleCaseGo false ((s.map fun c => if c = '_' then ' ' else c).data))

/-- The conditional demo alert (`main.py` lines 135-139): rendered only when
`demo_state.get('demo_active', False)` is truthy. -/
def demoAlertItems (ds : DemoState) : List RenderItem :=
  if ds.demo_active then
    fb_create_executive_alert_banner
      ("🎬 Executive Demo Active - Scenario: " ++ scenarioLabel ds.current_scenario)
      "info"
  else []

/-- The static preview KPIs of the fallback branch (`main.py` lines 330-335). -/
def previewKpis : List (String × KPI) :=
  [ ("Network Performance", { value := "94.2%", trend := 2.1, icon := "🟢" }),
    ("Revenue Protection", { value := "$2.8M", trend := 5.7, icon := "💰" }),
    ("AI Efficiency", { value := "92%", trend := 3.4, icon := "🤖" }),
    ("Risk Mitigation", { value := "67%", trend := -8.3, icon := "🛡️" }) ]

/-- The capabilities text of the fallback branch (`main.py` lines 339-348). -/
def capabilitiesContent : String :=
  "**Your executive suite provides comprehensive network intelligence:**\n\n"
  ++ "• **Real-time Performance Monitoring** with predictive failure detection\n"
  ++ "• **AI-Powered Customer Analytics** including churn prediction and sentiment analysis\n"
  ++ "• **Strategic Business Intelligence** with ROI tracking and revenue impact assessment\n"
  ++ "• **Automated Executive Reporting** with natural language insights and recommendations\n"
  ++ "• **Risk Assessment & Mitigation** with proactive maintenance scheduling\n"
  ++ "• **Market Intelligence Integration** for competitive advantage analysis"

/-- The platform metrics of the fallback summary card (`main.py` lines 350-355). -/
def execMetricsPreview : List (String × String) :=
  [ ("Models Available", "40+"), ("Response Time", "<1s"),
    ("Accuracy Rate", "92%"), ("Uptime SLA", "99.9%") ]

/-- The warning shown when no aggregate data is available (`main.py` line 325). -/
def syncWarningMsg : String :=
  "⚠️ Network data synchronization in progress. Executive dashboard will be available momentarily."

/-- The fallback preview branch (`main.py` lines 324-362): warning banner,
preview heading, preview KPI dashboard, capabilities summary card. -/
def fallbackItems : List RenderItem :=
  [ .alertBanner syncWarningMsg "warning",
    .markdownText "### 🏆 Executive Intelligence Preview",
    .kpiDashboard previewKpis,
    .summaryCard "Executive AI Intelligence Platform" capabilitiesContent
      execMetricsPreview "🏆" ]

/-- The AI executive summary text (`main.py` lines 239-250), built from the
formatted network metrics and two KPI values (dict accesses
`exec_kpis[...]['value']`; the keys are always present, `getD ""` is the
total-function crutch). -/
def executiveSummaryContent (net : RawNetworkMetrics)
    (kpis : List (String × KPI)) : String :=
  "**Network Operations Status:** Your telecommunications infrastructure is operating at "
  ++ formatFixed1 (orZeroQ net.AVG_SUCCESS_RATE * 100) ++ "% success rate across "
  ++ formatThousands (orZeroZ net.TOTAL_TOWERS) ++ " active cell towers.\n\n"
  ++ "**Business Impact:** Current performance levels are protecting approximately **$2.8M in monthly revenue** through sustained service quality and customer retention.\n\n"
  ++ "**Key Insights:**\n"
  ++ "• Premium service delivery maintained across "
  ++ (kpiValue kpis "Premium Performance").getD "" ++ " of network infrastructure\n"
  ++ "• Customer satisfaction trending at "
  ++ (kpiValue kpis "Customer Satisfaction").getD "" ++ " with AI-driven service improvements\n"
  ++ "• Risk incidents reduced by 8.3% through predictive analytics and proactive maintenance\n\n"
  ++ "**Strategic Outlook:** Network optimization initiatives are delivering measurable ROI with continued upward trajectory in operational efficiency."

/-- The summary-card metrics of the dashboard branch (`main.py` lines 252-257). -/
def summaryMetrics : List (String × String) :=
  [ ("ROI", "+340%"), ("Efficiency", "94.2%"),
    ("Risk Reduction", "8.3%"), ("Revenue Protected", "$2.8M") ]

/-- The KPI dashboard branch (`main.py` lines 226-321): heading, executive KPI
dashboard, AI summary card, and the button-driven action center (whose
on-click reports are not part of the initial render). -/
def dashboardItems (kpis : List (String × KPI)) (net : RawNetworkMetrics)
    (_cust : RawCustomerMetrics) : List RenderItem :=
  [ .markdownText "## 🏆 Executive Performance Dashboard",
    .kpiDashboard kpis,
    .markdownText "---",
    .summaryCard "AI-Generated Executive Summary"
      (executiveSummaryContent net kpis) summaryMetrics "🤖",
    .actionCenter ]

/-- The module-level branch on the load result (`main.py` line 226):
`if exec_kpis and network_metrics and customer_metrics` — a `None` result or
an empty KPI dict selects the fallback preview branch. -/
def renderBranch (r : LoadResult) : List RenderItem :=
  match r with
  | some (kpis, net, cust) =>
    if kpis = [] then fallbackItems else dashboardItems kpis net cust
  | none => fallbackItems

/-- Items rendered after the branch regardless of it
(`main.py` lines 364-530). -/
def tailItems : List RenderItem :=
  [ .markdownText "---",
    .markdownText "## 🚀 Executive Intelligence Platform",
    .navigationGrid 6,
    .markdownText "---",
    .markdownText "## ⚡ Technology Excellence Platform",
    .techPanels,
    .markdownText "---",
    .markdownText "## 📊 Executive Success Metrics",
    .successTiles,
    .pageFooter,
    .markdownText "---",
    .supportBlock ]

/-- Outcome of one page render: completed normally, or halted by `st.stop()`
with the items rendered up to that point. -/
inductive PageOutcome where
  | completed (items : List RenderItem)
  | halted (items : List RenderItem)
deriving DecidableEq

/-- The items a page outcome rendered. -/
def PageOutcome.items : PageOutcome → List RenderItem
  | .completed l => l
  | .halted l => l

/-- Whether the render ran to the end of the script. -/
def PageOutcome.continued : PageOutcome → Bool
  | .completed _ => true
  | .halted _ => false

/-- One load of `main.py` as a function of the collaborator outcomes: the
session context, and the two aggregation query results.  Order follows the
module body: CSS, sidebar, demo state, session (a failure here renders the
error box and halts), header, conditional demo banner, cached load (its own
`st.error` replay included), the data/fallback branch, then the static tail. -/
def runPage (ctx : Except String Unit)
    (netRes : QueryResult RawNetworkMetrics)
    (custRes : QueryResult RawCustomerMetrics) : PageOutcome :=
  let pre : List RenderItem := [.customCss, .sidebarNav]
  match get_snowflake_session ctx with
  | .error stopItems => .halted (pre ++ stopItems)
  | .ok _ =>
    let loaded := load_executive_dashboard_data netRes custRes
    .completed
      (pre
        ++ [.pageHeader "Executive Telco Network Intelligence Suite"
              "AI-Powered Network Operations Command Center • Real-Time Analytics • Predictive Intelligence • Executive Insights"
              "🏆"]
        ++ demoAlertItems demo_state
        ++ loaded.2
        ++ renderBranch loaded.1
        ++ tailItems)

/-! ## Helper lemmas -/

theorem kpiValue_networkUptime (net : RawNetworkMetrics) (cust : RawCustomerMetrics) :
    kpiValue (execKpis net cust) "Network Uptime"
      = some (formatPct1 (orZeroQ net.AVG_SUCCESS_RATE * 100)) := rfl

theorem kpiValue_activeInfrastructure (net : RawNetworkMetrics) (cust : RawCustomerMetrics) :
    kpiValue (execKpis net cust) "Active Infrastructure"
      = some (formatThousands (orZeroZ net.TOTAL_TOWERS)) := rfl

theorem kpiValue_customerSatisfaction (net : RawNetworkMetrics) (cust : RawCustomerMetrics) :
    kpiValue (execKpis net cust) "Customer Satisfaction"
      = some (formatPct1 ((orZeroQ cust.AVG_SENTIMENT + 1) * 50)) := rfl

theorem kpiValue_premiumPerformance (net : RawNetworkMetrics) (cust : RawCustomerMetrics) :
    kpiValue (execKpis net cust) "Premium Performance"
      = some (formatPct0 (premiumPctQ net.PREMIUM_TOWERS net.TOTAL_TOWERS)) := rfl

/-- A concrete healthy network aggregate row used for closed witnesses. -/
def sampleNet : RawNetworkMetrics :=
  { TOTAL_TOWERS := some 1000, AVG_SUCCESS_RATE := some (19/20),
    CRITICAL_ISSUES := some 3, AVG_DL_UTILIZATION := some 0,
    TOTAL_THROUGHPUT := some 0, PREMIUM_TOWERS := some 950 }

/-- A concrete customer aggregate row used for closed witnesses. -/
def sampleCust : RawCustomerMetrics :=
  { TOTAL_TICKETS := some 10, AVG_SENTIMENT := some 0,
    CRITICAL_TICKETS := some 1, UNIQUE_CUSTOMERS := some 5,
    SATISFIED_CUSTOMERS := some 2 }

/-! ## C7 — Customer Satisfaction endpoint mapping -/

/-- C7: the Customer Satisfaction KPI formula `(average sentiment + 1) × 50`,
formatted to one decimal with a `%` suffix, maps sentiment −1 to `"0.0%"`,
sentiment 0 to `"50.0%"`, and sentiment 1 to `"100.0%"`. -/
theorem C7_customer_satisfaction_endpoints (net : RawNetworkMetrics)
    (cust : RawCustomerMetrics) :
    (cust.AVG_SENTIMENT = some (-1) →
      kpiValue (execKpis net cust) "Customer Satisfaction" = some "0.0%") ∧
    (cust.AVG_SENTIMENT = some 0 →
      kpiValue (execKpis net cust) "Customer Satisfaction" = some "50.0%") ∧
    (cust.AVG_SENTIMENT = some 1 →
      kpiValue (execKpis net cust) "Customer Satisfaction" = some "100.0%") := by
  refine ⟨fun h => ?_, fun h => ?_, fun h => ?_⟩
  · rw [kpiValue_customerSatisfaction, h]
    have he : (orZeroQ (some (-1)) + 1) * 50 = ((0 : ℤ) : ℚ) := by norm_num [orZeroQ]
    rw [he]
    unfold formatPct1
    rw [formatFixed1_intCast]
    decide
  · rw [kpiValue_customerSatisfaction, h]
    have he : (orZeroQ (some 0) + 1) * 50 = ((50 : ℤ) : ℚ) := by norm_num [orZeroQ]
    rw [he]
    unfold formatPct1
    rw [formatFixed1_intCast]
    decide
  · rw [kpiValue_customerSatisfaction, h]
    have he : (orZeroQ (some 1) + 1) * 50 = ((100 : ℤ) : ℚ) := by norm_num [orZeroQ]
    rw [he]
    unfold formatPct1
    rw [formatFixed1_intCast]
    decide

/-- Witness for C7 at concrete rows: sentiment −1, 0 and 1 give the three
endpoint strings. -/
theorem C7_customer_satisfaction_endpoints_witness :
    kpiValue (execKpis sampleNet { sampleCust with AVG_SENTIMENT := some (-1) })
      "Customer Satisfaction" = some "0.0%" ∧
    kpiValue (execKpis sampleNet sampleCust)
      "Customer Satisfaction" = some "50.0%" ∧
    kpiValue (execKpis sampleNet { sampleCust with AVG_SENTIMENT := some 1 })
      "Customer Satisfaction" = some "100.0%" :=
  ⟨(C7_customer_satisfaction_endpoints sampleNet _).1 rfl,
   (C7_customer_satisfaction_endpoints sampleNet sampleCust).2.1 rfl,
   (C7_customer_satisfaction_endpoints sampleNet _).2.2 rfl⟩

/-! ## C9 — confidence badge labels -/

/-- C9: `create_ai_insights_card` labels the confidence badge `"High"` iff
confidence > 0.8, `"Medium"` iff 0.6 < confidence ≤ 0.8, and `"Low"`
otherwise; confidence exactly 0.8 is `"Medium"` and the default confidence
0.0 is `"Low"`. -/
theorem C9_confidence_labels (c : ℚ) :
    (confidence_text c = "High" ↔ 0.8 < c) ∧
    (confidence_text c = "Medium" ↔ 0.6 < c ∧ c ≤ 0.8) ∧
    (confidence_text c = "Low" ↔ c ≤ 0.6) ∧
    confidence_text 0.8 = "Medium" ∧
    confidence_text create_ai_insights_card_default_confidence = "Low" := by
  have h68 : (0.6 : ℚ) < 0.8 := by norm_num
  refine ⟨?_, ?_, ?_, ?_, ?_⟩
  · unfold confidence_text
    split_ifs with h1 h2 <;> simp [h1]
  · unfold confidence_text
    split_ifs with h1 h2
    · simp [not_le.mpr h1]
    · simp [h2, le_of_not_lt h1]
    · simp [h2]
  · unfold confidence_text
    split_ifs with h1 h2
    · have : ¬ c ≤ 0.6 := by push_neg; linarith
      simp [this]
    · simp [not_le.mpr h2]
    · simp [le_of_not_lt h2]
  · norm_num [confidence_text]
  · norm_num [confidence_text, create_ai_insights_card_default_confidence]

/-! ## C10 — progress tracker never shows 100% -/

/-- C10: for all integers with 1 ≤ current_step ≤ total_steps,
`create_ai_progress_tracker` renders a bar width of
`((current_step − 1) / total_steps) × 100` percent, strictly less than 100 —
even on the final step — and the division is unguarded at `total_steps = 0`
(a `ZeroDivisionError`, modelled as `none`). -/
theorem C10_progress_bar_strictly_below_100 (cs ts : ℤ)
    (h1 : 1 ≤ cs) (h2 : cs ≤ ts) :
    ai_progress_width cs ts = some (((cs : ℚ) - 1) / (ts : ℚ) * 100) ∧
    ((cs : ℚ) - 1) / (ts : ℚ) * 100 < 100 ∧
    ai_progress cs 0 = none := by
  have htsne : ts ≠ 0 := by omega
  have htsq : (0 : ℚ) < (ts : ℚ) := by exact_mod_cast (by omega : (0 : ℤ) < ts)
  refine ⟨?_, ?_, ?_⟩
  · simp [ai_progress_width, ai_progress, htsne]
  · have hlt : ((cs : ℚ) - 1) / (ts : ℚ) < 1 := by
      rw [div_lt_one htsq]
      have hc : (cs : ℚ) ≤ (ts : ℚ) := by exact_mod_cast h2
      linarith
    linarith
  · simp [ai_progress]

/-- Witness for C10 on the final step of a three-step process. -/
theorem C10_progress_bar_strictly_below_100_witness :
    ai_progress_width 3 3 = some ((((3 : ℤ) : ℚ) - 1) / ((3 : ℤ) : ℚ) * 100) ∧
    (((3 : ℤ) : ℚ) - 1) / ((3 : ℤ) : ℚ) * 100 < 100 ∧
    ai_progress 3 0 = none :=
  C10_progress_bar_strictly_below_100 3 3 (by norm_num) (by norm_num)

/-! ## C2 — nulls default to zero, derivation is total -/

/-- The network row with every null numeric field replaced by 0. -/
def fillZerosNet (n : RawNetworkMetrics) : RawNetworkMetrics :=
  { TOTAL_TOWERS := some (orZeroZ n.TOTAL_TOWERS)
    AVG_SUCCESS_RATE := some (orZeroQ n.AVG_SUCCESS_RATE)
    CRITICAL_ISSUES := some (orZeroZ n.CRITICAL_ISSUES)
    AVG_DL_UTILIZATION := some (orZeroQ n.AVG_DL_UTILIZATION)
    TOTAL_THROUGHPUT := some (orZeroQ n.TOTAL_THROUGHPUT)
    PREMIUM_TOWERS := some (orZeroZ n.PREMIUM_TOWERS) }

/-- The customer row with every null numeric field replaced by 0. -/
def fillZerosCust (c : RawCustomerMetrics) : RawCustomerMetrics :=
  { TOTAL_TICKETS := some (orZeroZ c.TOTAL_TICKETS)
    AVG_SENTIMENT := some (orZeroQ c.AVG_SENTIMENT)
    CRITICAL_TICKETS := some (orZeroZ c.CRITICAL_TICKETS)
    UNIQUE_CUSTOMERS := some (orZeroZ c.UNIQUE_CUSTOMERS)
    SATISFIED_CUSTOMERS := some (orZeroZ c.SATISFIED_CUSTOMERS) }

theorem orZeroQ_fill (o : Option ℚ) : orZeroQ (some (orZeroQ o)) = orZeroQ o := by
  cases o <;> rfl

theorem orZeroZ_fill (o : Option ℤ) : orZeroZ (some (orZeroZ o)) = orZeroZ o := by
  cases o <;> rfl

theorem orOneZ_fill (o : Option ℤ) : orOneZ (some (orZeroZ o)) = orOneZ o := by
  cases o <;> rfl

/-- C2: KPI derivation substitutes 0 for every null numeric field before
applying the formulas and is total (all six KPIs are always produced); in
particular a null `AVG_SUCCESS_RATE` yields Network Uptime `"0.0%"` and a
null `TOTAL_TOWERS` yields Active Infrastructure `"0"`. -/
theorem C2_nulls_default_to_zero (net : RawNetworkMetrics)
    (cust : RawCustomerMetrics) :
    execKpis net cust = execKpis (fillZerosNet net) (fillZerosCust cust) ∧
    (execKpis net cust).length = 6 ∧
    (net.AVG_SUCCESS_RATE = none →
      kpiValue (execKpis net cust) "Network Uptime" = some "0.0%") ∧
    (net.TOTAL_TOWERS = none →
      kpiValue (execKpis net cust) "Active Infrastructure" = some "0") := by
  refine ⟨?_, rfl, fun h => ?_, fun h => ?_⟩
  · simp [execKpis, fillZerosNet, fillZerosCust, premiumPctQ,
      orZeroQ_fill, orZeroZ_fill, orOneZ_fill]
  · rw [kpiValue_networkUptime, h]
    have he : orZeroQ none * 100 = ((0 : ℤ) : ℚ) := by norm_num [orZeroQ]
    rw [he]
    unfold formatPct1
    rw [formatFixed1_intCast]
    decide
  · rw [kpiValue_activeInfrastructure, h]
    decide

/-- Witness for C2 at the all-null rows. -/
theorem C2_nulls_default_to_zero_witness :
    kpiValue (execKpis ⟨none, none, none, none, none, none⟩
        ⟨none, none, none, none, none⟩) "Network Uptime" = some "0.0%" ∧
    kpiValue (execKpis ⟨none, none, none, none, none, none⟩
        ⟨none, none, none, none, none⟩) "Active Infrastructure" = some "0" :=
  ⟨(C2_nulls_default_to_zero _ _).2.2.1 rfl,
   (C2_nulls_default_to_zero _ _).2.2.2 rfl⟩

/-! ## C1 — absent source data selects the fallback preview path -/

/-- C1: if either aggregation query returns zero rows or raises,
`load_executive_dashboard_data` returns the unavailable result
`(None, None, None)` — never a partial KPI set — and the page renders the
fallback preview path (warning banner, preview KPIs, capabilities summary
card) instead of the KPI dashboard. -/
theorem C1_absent_source_renders_fallback
    (netRes : QueryResult RawNetworkMetrics)
    (custRes : QueryResult RawCustomerMetrics)
    (h : netRes.isAbsent = true ∨ custRes.isAbsent = true) :
    (load_executive_dashboard_data netRes custRes).1 = none ∧
    renderBranch (load_executive_dashboard_data netRes custRes).1 = fallbackItems ∧
    RenderItem.alertBanner syncWarningMsg "warning" ∈ fallbackItems ∧
    RenderItem.kpiDashboard previewKpis ∈ fallbackItems ∧
    RenderItem.summaryCard "Executive AI Intelligence Platform"
      capabilitiesContent execMetricsPreview "🏆" ∈ fallbackItems ∧
    RenderItem.markdownText "## 🏆 Executive Performance Dashboard" ∉ fallbackItems := by
  have hnone : (load_executive_dashboard_data netRes custRes).1 = none := by
    rcases netRes with rows | e
    · rcases custRes with rows' | e'
      · rcases rows with _ | ⟨r, rs⟩
        · rfl
        · rcases rows' with _ | ⟨r', rs'⟩
          · rfl
          · simp [QueryResult.isAbsent] at h
      · rfl
    · rfl
  refine ⟨hnone, by rw [hnone]; rfl, ?_, ?_, ?_, ?_⟩
  · exact List.Mem.head _
  · exact List.Mem.tail _ (List.Mem.tail _ (List.Mem.head _))
  · exact List.Mem.tail _ (List.Mem.tail _ (List.Mem.tail _ (List.Mem.head _)))
  · simp [fallbackItems]

/-- Witness for C1: the network query raised while the customer query
returned one row. -/
theorem C1_absent_source_renders_fallback_witness :
    (load_executive_dashboard_data (.err "timeout") (.ok [sampleCust])).1 = none ∧
    renderBranch (load_executive_dashboard_data (.err "timeout") (.ok [sampleCust])).1
      = fallbackItems ∧
    RenderItem.alertBanner syncWarningMsg "warning" ∈ fallbackItems ∧
    RenderItem.kpiDashboard previewKpis ∈ fallbackItems ∧
    RenderItem.summaryCard "Executive AI Intelligence Platform"
      capabilitiesContent execMetricsPreview "🏆" ∈ fallbackItems ∧
    RenderItem.markdownText "## 🏆 Executive Performance Dashboard" ∉ fallbackItems :=
  C1_absent_source_renders_fallback (.err "timeout") (.ok [sampleCust]) (Or.inl rfl)

/-! ## C8 — the import fallback is always bound; no demo banner ever renders -/

/-- Whether a rendered item is the demo-active alert banner (its message
starts with the clapper glyph). -/
def RenderItem.isDemoBanner : RenderItem → Bool
  | .alertBanner m _ => m.startsWith "🎬"
  | _ => false

/-- Whether a render contains the demo-active alert banner. -/
def hasDemoBanner (items : List RenderItem) : Bool :=
  items.any RenderItem.isDemoBanner

theorem any_isDemoBanner_loadSnd (netRes : QueryResult RawNetworkMetrics)
    (custRes : QueryResult RawCustomerMetrics) :
    ((load_executive_dashboard_data netRes custRes).2).any RenderItem.isDemoBanner
      = false := by
  rcases netRes with rows | e
  · rcases custRes with rows' | e'
    · rcases rows with _ | ⟨r, rs⟩
      · rfl
      · rcases rows' with _ | ⟨r', rs'⟩ <;> rfl
    · rfl
  · rfl

theorem any_isDemoBanner_renderBranch (r : LoadResult) :
    (renderBranch r).any RenderItem.isDemoBanner = false := by
  rcases r with _ | ⟨kpis, net, cust⟩
  · decide
  · rw [renderBranch]
    split
    · decide
    · simp [dashboardItems, RenderItem.isDemoBanner]

/-- C8: `design_system.py` defines none of the `create_executive_*` names, so
the full import always raises `ImportError` and the fallback definitions are
bound (the fallback import itself succeeds); in particular the demo
controller always returns `{current_scenario: baseline, demo_active: False}`,
so the demo-active alert banner is never rendered on any page load. -/
theorem C8_import_fallback_always_bound :
    importSucceeds mainFullImportNames designSystemExports = false ∧
    designSystemExports.contains "create_executive_dashboard" = false ∧
    designSystemExports.contains "create_executive_navigation_grid" = false ∧
    designSystemExports.contains "create_executive_summary_card" = false ∧
    designSystemExports.contains "create_executive_alert_banner" = false ∧
    designSystemExports.contains "create_executive_demo_controller" = false ∧
    importSucceeds mainFallbackImportNames designSystemExports = true ∧
    demo_controller_binding = some fb_create_executive_demo_controller ∧
    demo_state = { current_scenario := "baseline", demo_active := false } ∧
    demoAlertItems demo_state = [] ∧
    (∀ (ctx : Except String Unit) (netRes : QueryResult RawNetworkMetrics)
        (custRes : QueryResult RawCustomerMetrics),
      hasDemoBanner (runPage ctx netRes custRes).items = false) := by
  refine ⟨by decide, by decide, by decide, by decide, by decide, by decide,
    by decide, by decide, by decide, by decide, ?_⟩
  intro ctx netRes custRes
  have hdemo : demoAlertItems demo_state = [] := by decide
  rcases ctx with e | u
  · simp [runPage, get_snowflake_session, PageOutcome.items, hasDemoBanner,
      RenderItem.isDemoBanner]
  · simp [runPage, get_snowflake_session, PageOutcome.items, hasDemoBanner,
      List.any_append, hdemo, any_isDemoBanner_loadSnd,
      any_isDemoBanner_renderBranch, RenderItem.isDemoBanner]
    decide

/-! ## C3 — Premium Performance is NOT bounded by 100 in general

The denominator floor of 1 guards division by zero, but nothing caps the
ratio: a premium count exceeding the total yields a percentage above 100. -/

theorem roundHalfEven_nonneg (q : ℚ) (h : 0 ≤ q) : 0 ≤ roundHalfEven q := by
  have hf : (0 : ℤ) ≤ ⌊q⌋ := Int.le_floor.mpr (by exact_mod_cast h)
  unfold roundHalfEven
  rw [ratFloor_eq_intFloor]
  split_ifs <;> omega

theorem roundHalfEven_le_intCast (q : ℚ) (n : ℤ) (h : q ≤ (n : ℚ)) :
    roundHalfEven q ≤ n := by
  have hfn : ⌊q⌋ ≤ n := by
    have h1 : ⌊q⌋ ≤ ⌊(n : ℚ)⌋ := Int.floor_le_floor h
    simpa using h1
  unfold roundHalfEven
  rw [ratFloor_eq_intFloor]
  split_ifs with hA hB hC
  · exact hfn
  · have hlt : ((⌊q⌋ : ℤ) : ℚ) < q := by linarith
    have hltn : ⌊q⌋ < n := by exact_mod_cast lt_of_lt_of_le hlt h
    omega
  · exact hfn
  · have heq : q - ((⌊q⌋ : ℤ) : ℚ) = 1/2 :=
      le_antisymm (le_of_not_lt hB) (le_of_not_lt hA)
    have hlt : ((⌊q⌋ : ℤ) : ℚ) < q := by linarith
    have hltn : ⌊q⌋ < n := by exact_mod_cast lt_of_lt_of_le hlt h
    omega

/-- Counterexample to C3 as stated: with 5 premium towers out of 2 total
towers (both non-negative), the Premium Performance computation
`premium ÷ max(total, 1) × 100` rounds to 250, outside [0, 100]; the rendered
KPI value is `"250%"`. -/
theorem C3_premium_exceeds_total_counterexample :
    roundHalfEven (premiumPctQ (some 5) (some 2)) = 250 ∧
    ¬ roundHalfEven (premiumPctQ (some 5) (some 2)) ≤ 100 ∧
    kpiValue
      (execKpis ⟨some 2, some (19/20), some 3, some 0, some 0, some 5⟩ sampleCust)
      "Premium Performance" = some "250%" := by
  have hq : premiumPctQ (some 5) (some 2) = ((250 : ℤ) : ℚ) := by
    norm_num [premiumPctQ, orZeroZ, orOneZ]
  refine ⟨?_, ?_, ?_⟩
  · rw [hq, roundHalfEven_intCast]
  · rw [hq, roundHalfEven_intCast]; norm_num
  · rw [kpiValue_premiumPerformance]
    show some (formatPct0 (premiumPctQ (some 5) (some 2))) = _
    rw [hq]
    unfold formatPct0
    rw [roundHalfEven_intCast]
    decide

/-- C3 amended: whenever the premium count does not exceed the total count
(which the SQL guarantees, premium towers being a subset of all towers), the
rounded Premium Performance percentage lies in [0, 100] for all non-negative
counts, including total = 0. -/
theorem C3_premium_performance_bounded (p t : ℤ)
    (hp : 0 ≤ p) (ht : 0 ≤ t) (hpt : p ≤ t) :
    0 ≤ roundHalfEven (premiumPctQ (some p) (some t)) ∧
    roundHalfEven (premiumPctQ (some p) (some t)) ≤ 100 := by
  rcases eq_or_ne t 0 with h0 | h0
  · subst h0
    have hp0 : p = 0 := le_antisymm hpt hp
    subst hp0
    have hq : premiumPctQ (some 0) (some 0) = ((0 : ℤ) : ℚ) := by
      norm_num [premiumPctQ, orZeroZ, orOneZ]
    rw [hq, roundHalfEven_intCast]
    norm_num
  · have hmax : max (orOneZ (some t)) 1 = t := by
      have hd : orOneZ (some t) = t := by simp [orOneZ, h0]
      rw [hd]; omega
    have htq : (0 : ℚ) < (t : ℚ) := by
      exact_mod_cast (by omega : (0 : ℤ) < t)
    have hq : premiumPctQ (some p) (some t) = (p : ℚ) / (t : ℚ) * 100 := by
      simp [premiumPctQ, orZeroZ, hmax]
    have hq0 : 0 ≤ (p : ℚ) / (t : ℚ) * 100 := by
      have : (0 : ℚ) ≤ (p : ℚ) := by exact_mod_cast hp
      have hdiv : (0 : ℚ) ≤ (p : ℚ) / (t : ℚ) := div_nonneg this (le_of_lt htq)
      linarith
    have hq100 : (p : ℚ) / (t : ℚ) * 100 ≤ ((100 : ℤ) : ℚ) := by
      have h1 : (p : ℚ) / (t : ℚ) ≤ 1 := by
        rw [div_le_one htq]; exact_mod_cast hpt
      push_cast
      linarith
    constructor
    · rw [hq]; exact roundHalfEven_nonneg _ hq0
    · rw [hq]; exact roundHalfEven_le_intCast _ 100 hq100

/-- Witness for the amended C3 at 950 premium towers out of 1000. -/
theorem C3_premium_performance_bounded_witness :
    0 ≤ roundHalfEven (premiumPctQ (some 950) (some 1000)) ∧
    roundHalfEven (premiumPctQ (some 950) (some 1000)) ≤ 100 :=
  C3_premium_performance_bounded 950 1000 (by norm_num) (by norm_num) (by norm_num)

/-! ## C4 — session failure halts the render (st.stop), no warning/preview -/

/-- Counterexample to C4 as stated: with an unreachable session,
`get_snowflake_session` renders an error-styled info box and `st.stop()`s —
the page render halts; no warning banner and no capability-preview card are
rendered, and the render does not continue. -/
theorem C4_session_failure_halts_counterexample :
    runPage (.error "connection refused") (.ok []) (.ok [])
      = .halted [RenderItem.customCss, RenderItem.sidebarNav,
          RenderItem.infoBox "Failed to connect to Snowflake: connection refused" "error"] ∧
    (runPage (.error "connection refused") (.ok []) (.ok [])).continued = false ∧
    RenderItem.alertBanner syncWarningMsg "warning"
      ∉ (runPage (.error "connection refused") (.ok []) (.ok [])).items ∧
    RenderItem.summaryCard "Executive AI Intelligence Platform"
        capabilitiesContent execMetricsPreview "🏆"
      ∉ (runPage (.error "connection refused") (.ok []) (.ok [])).items := by
  refine ⟨rfl, rfl, ?_, ?_⟩
  · simp [runPage, get_snowflake_session, PageOutcome.items]
  · simp [runPage, get_snowflake_session, PageOutcome.items]

/-- C4 amended: when the warehouse session cannot be reached, the failure is
caught inside `get_snowflake_session`, which renders an error info box
(`Failed to connect to Snowflake: ...`) and then halts the page render via
`st.stop()` — it is not recovered into the warning-banner-plus-preview path
(that path is reserved for query failures under a live session, see C1), and
the rest of the page does not render. -/
theorem C4_session_failure_error_box_and_halt (e : String)
    (netRes : QueryResult RawNetworkMetrics)
    (custRes : QueryResult RawCustomerMetrics) :
    runPage (.error e) netRes custRes
      = .halted [RenderItem.customCss, RenderItem.sidebarNav,
          RenderItem.infoBox ("Failed to connect to Snowflake: " ++ e) "error"] ∧
    (runPage (.error e) netRes custRes).continued = false ∧
    RenderItem.alertBanner syncWarningMsg "warning"
      ∉ (runPage (.error e) netRes custRes).items ∧
    RenderItem.summaryCard "Executive AI Intelligence Platform"
        capabilitiesContent execMetricsPreview "🏆"
      ∉ (runPage (.error e) netRes custRes).items := by
  refine ⟨rfl, rfl, ?_, ?_⟩
  · simp [runPage, get_snowflake_session, PageOutcome.items]
  · simp [runPage, get_snowflake_session, PageOutcome.items]

/-! ## C5 — a query failure IS cached (the function returns, so the value
is stored) -/

/-- A query outcome that raised. -/
def QueryResult.isErr : QueryResult α → Bool
  | .err _ => true
  | .ok _ => false

/-- A call through the cache wrapper within the TTL returns the stored value
without executing the wrapped function. -/
theorem cachedLoad_hit (later now : Nat) (v : LoadResult × List RenderItem)
    (n2 : QueryResult RawNetworkMetrics) (c2 : QueryResult RawCustomerMetrics)
    (h : later - now < 300) :
    cachedLoad later (some ⟨now, v⟩) n2 c2 = (v, some ⟨now, v⟩, false) := by
  show (if later - now < 300 then (v, some (⟨now, v⟩ : CacheSlot), false)
        else
          (load_executive_dashboard_data n2 c2,
            some (⟨later, load_executive_dashboard_data n2 c2⟩ : CacheSlot), true))
      = (v, some ⟨now, v⟩, false)
  rw [if_pos h]

/-- Counterexample to C5 as stated: after a failing network query at time 0,
the unavailable result is stored in the cache slot (the slot is not left
empty), and a second call at time 100 — within the 300-second TTL, with both
queries now healthy — returns the cached failure without re-executing the
queries. -/
theorem C5_failure_result_is_cached_counterexample :
    (cachedLoad 0 none (.err "query failed") (.ok [sampleCust])).2.1
      = some ⟨0, (none,
          [.stError "Error loading executive dashboard data: query failed"])⟩ ∧
    (cachedLoad 0 none (.err "query failed") (.ok [sampleCust])).2.1 ≠ none ∧
    cachedLoad 100
        (cachedLoad 0 none (.err "query failed") (.ok [sampleCust])).2.1
        (.ok [sampleNet]) (.ok [sampleCust])
      = ((none, [.stError "Error loading executive dashboard data: query failed"]),
         some ⟨0, (none,
           [.stError "Error loading executive dashboard data: query failed"])⟩,
         false) := by
  have h1 : (cachedLoad 0 none (.err "query failed") (.ok [sampleCust])).2.1
      = some ⟨0, (none,
          [.stError "Error loading executive dashboard data: query failed"])⟩ := rfl
  refine ⟨h1, ?_, rfl⟩
  rw [h1]
  simp

/-- C5 amended: if either aggregation query raises, the error is surfaced to
the caller as the unavailable result `(None, None, None)`, never as a raised
exception — but precisely because the function returns normally,
`st.cache_data` stores that unavailable result in the 300-second slot, and a
subsequent call within the TTL returns the cached failure without
re-executing the queries. -/
theorem C5_failure_cached_as_unavailable (now later : Nat)
    (netRes : QueryResult RawNetworkMetrics)
    (custRes : QueryResult RawCustomerMetrics)
    (h : netRes.isErr = true ∨ custRes.isErr = true)
    (hfresh : later - now < 300)
    (netRes2 : QueryResult RawNetworkMetrics)
    (custRes2 : QueryResult RawCustomerMetrics) :
    (cachedLoad now none netRes custRes).1.1 = none ∧
    (cachedLoad now none netRes custRes).2.1
      = some ⟨now, load_executive_dashboard_data netRes custRes⟩ ∧
    (cachedLoad now none netRes custRes).2.2 = true ∧
    cachedLoad later (some ⟨now, load_executive_dashboard_data netRes custRes⟩)
        netRes2 custRes2
      = (load_executive_dashboard_data netRes custRes,
         some ⟨now, load_executive_dashboard_data netRes custRes⟩, false) := by
  have hnone : (load_executive_dashboard_data netRes custRes).1 = none := by
    rcases netRes with rows | e
    · rcases custRes with rows' | e'
      · simp [QueryResult.isErr] at h
      · rfl
    · rfl
  refine ⟨hnone, rfl, rfl, ?_⟩
  exact cachedLoad_hit later now _ netRes2 custRes2 hfresh

/-- Witness for the amended C5: failing network query at time 0, healthy
queries at time 100. -/
theorem C5_failure_cached_as_unavailable_witness :
    (cachedLoad 0 none (.err "boom") (.ok [sampleCust])).1.1 = none ∧
    (cachedLoad 0 none (.err "boom") (.ok [sampleCust])).2.1
      = some ⟨0, load_executive_dashboard_data (.err "boom") (.ok [sampleCust])⟩ ∧
    (cachedLoad 0 none (.err "boom") (.ok [sampleCust])).2.2 = true ∧
    cachedLoad 100
        (some ⟨0, load_executive_dashboard_data (.err "boom") (.ok [sampleCust])⟩)
        (.ok [sampleNet]) (.ok [sampleCust])
      = (load_executive_dashboard_data (.err "boom") (.ok [sampleCust]),
         some ⟨0, load_executive_dashboard_data (.err "boom") (.ok [sampleCust])⟩,
         false) :=
  C5_failure_cached_as_unavailable 0 100 (.err "boom") (.ok [sampleCust])
    (Or.inl rfl) (by norm_num) (.ok [sampleNet]) (.ok [sampleCust])

/-! ## C6 — empty collections: design_system degrades, two fallbacks raise -/

/-- Counterexample to C6 as stated: the `main.py` fallback variants of
`create_ai_metrics_dashboard` and `create_executive_dashboard` request zero
layout columns for an empty mapping, so `st.columns` raises instead of
rendering nothing. -/
theorem C6_empty_collection_raises_counterexample :
    fb_create_ai_metrics_dashboard [] = .error stZeroColumnsMsg ∧
    fb_create_executive_dashboard [] = .error stZeroColumnsMsg :=
  ⟨rfl, rfl⟩

/-- C6 amended: given an empty collection, the design_system components
render nothing and never raise, and among the `main.py` fallback variants
`create_ai_recommendation_list` (title only, no numbered items) and
`create_executive_summary_card` (heading and content only, no metric tiles —
whether metrics is an empty mapping or absent) also render without error; but
the fallback `create_ai_metrics_dashboard` and `create_executive_dashboard`
raise the zero-columns exception on an empty mapping. -/
theorem C6_empty_collections_behavior (title t c icon : String) :
    create_ai_recommendation_list [] title = [] ∧
    create_ai_metrics_dashboard [] = .ok [] ∧
    fb_create_ai_recommendation_list [] title
      = [.markdownText ("### " ++ title)] ∧
    fb_create_executive_summary_card t c (some []) icon
      = .ok [.markdownText ("### " ++ icon ++ " " ++ t), .markdownText c] ∧
    fb_create_executive_summary_card t c none icon
      = .ok [.markdownText ("### " ++ icon ++ " " ++ t), .markdownText c] ∧
    fb_create_ai_metrics_dashboard [] = .error stZeroColumnsMsg ∧
    fb_create_executive_dashboard [] = .error stZeroColumnsMsg :=
  ⟨rfl, rfl, rfl, rfl, rfl, rfl, rfl⟩

end Telco
